import Mathlib

/-!
Shallow embedding of `pretty-git-status` (src/main.rs), a one-file Rust
program that prints a colorized one-line git status summary for a shell
prompt.  The program talks to libgit2 (through the `git2` crate); here the
provider's answers to the queries the program issues are the fields of a
`Repository` record, and each Rust function becomes a Lean function over
that record.  Terminal styling (the `colored_truecolor` calls) is dropped:
the spec declares color/styling out of scope, so the style combinators are
modelled as the identity and the formatter below produces the plain glyph
text that main assembles.
-/

/-! ## Status bitmask (git2 `Status` flags, values from libgit2) -/

/-- git2 `Status::INDEX_NEW` bit (1 << 0). -/
def INDEX_NEW : Nat := 1

/-- git2 `Status::INDEX_MODIFIED` bit (1 << 1). -/
def INDEX_MODIFIED : Nat := 2

/-- git2 `Status::INDEX_DELETED` bit (1 << 2). -/
def INDEX_DELETED : Nat := 4

/-- git2 `Status::INDEX_RENAMED` bit (1 << 3). -/
def INDEX_RENAMED : Nat := 8

/-- git2 `Status::INDEX_TYPECHANGE` bit (1 << 4). -/
def INDEX_TYPECHANGE : Nat := 16

/-- git2 `Status::WT_NEW` bit (1 << 7). -/
def WT_NEW : Nat := 128

/-- git2 `Status::WT_MODIFIED` bit (1 << 8). -/
def WT_MODIFIED : Nat := 256

/-- git2 `Status::WT_DELETED` bit (1 << 9). -/
def WT_DELETED : Nat := 512

/-- git2 `Status::WT_TYPECHANGE` bit (1 << 10). -/
def WT_TYPECHANGE : Nat := 1024

/-- git2 `Status::WT_RENAMED` bit (1 << 11). -/
def WT_RENAMED : Nat := 2048

/-- git2 `Status::CONFLICTED` bit (1 << 15). -/
def CONFLICTED : Nat := 32768

/-- git2 `Status::intersects`: the two bitmasks share at least one bit
(`(self.bits & other.bits) != 0`). -/
def status_intersects (a b : Nat) : Bool := (a &&& b) != 0

/-- The mask main.rs passes for the untracked count (line 37). -/
def untracked_mask : Nat := WT_NEW

/-- The mask main.rs passes for the changed count (lines 39-42):
`WT_DELETED | WT_MODIFIED | WT_RENAMED | WT_TYPECHANGE`. -/
def changed_mask : Nat := WT_DELETED ||| WT_MODIFIED ||| WT_RENAMED ||| WT_TYPECHANGE

/-- The mask main.rs passes for the staged count (lines 44-50):
`INDEX_MODIFIED | INDEX_NEW | INDEX_RENAMED | INDEX_TYPECHANGE`
(note: no `INDEX_DELETED`). -/
def staged_mask : Nat := INDEX_MODIFIED ||| INDEX_NEW ||| INDEX_RENAMED ||| INDEX_TYPECHANGE

/-- The mask main.rs passes for the conflicted count (line 52). -/
def conflicted_mask : Nat := CONFLICTED

/-- Function `count_by_status` (main.rs lines 235-245): walk every reported status
entry and increment a counter whenever the entry's bitmask intersects the
given category mask.  A status report is modelled as the list of the
entries' status bitmasks. -/
def count_by_status (statuses : List Nat) (status : Nat) : Nat :=
  statuses.foldl (fun counter entry =>
    if status_intersects entry status then counter + 1 else counter) 0

/-! ## Repository model

The program's view of the repository is the set of answers libgit2 gives to
the queries it issues: the result of `repo.head()`, the raw contents of the
`HEAD` file, the repository state, the status report, the branch upstream
lookups, the age of the `FETCH_HEAD` marker file, and the stash
enumeration.  Each is a field below; `Option` encodes a fallible query. -/

/-- The information main.rs reads off a resolved HEAD reference:
`is_branch()`, `shorthand()` (branch short name, `None` if non-UTF8),
`target()` (the commit id as its 40-char lowercase hex string, `None` for a
symbolic reference), and `name()` (the full refname, `None` if non-UTF8). -/
structure RefInfo where
  isBranch : Bool
  shorthand : Option String
  target : Option String
  name : Option String
deriving DecidableEq

/-- Result of `repo.head()`: a resolved reference, an `UnbornBranch` error
(fresh repository, branch ref has no target yet), or any other error. -/
inductive HeadResult where
  | ok (ref : RefInfo)
  | errUnborn
  | errOther
deriving DecidableEq

/-- git2 `RepositoryState` (all variants of the enum main.rs matches on). -/
inductive RepoState where
  | Clean
  | Merge
  | Revert
  | RevertSequence
  | CherryPick
  | CherryPickSequence
  | Bisect
  | Rebase
  | RebaseInteractive
  | RebaseMerge
  | ApplyMailbox
  | ApplyMailboxOrRebase
deriving DecidableEq

/-- Outcome of libgit2's `git_stash_foreach` with a callback that always
returns "continue": the stash ref is absent (success, zero callbacks), the
stash ref or its reflog cannot be read (error, raised before any callback
is invoked), or the reflog is read and the callback runs once per entry. -/
inductive StashEnum where
  | noStashRef
  | failure
  | entries (n : Nat)
deriving DecidableEq

/-- One opened repository, as the answers the provider gives to every query
main.rs can issue against it. `fetchHeadAge`: `none` when `FETCH_HEAD` does
not exist, `some none` when it exists but its modification time cannot be
read or lies in the future (`modified()`/`elapsed()` fail), `some (some a)`
when it exists with age `a` seconds.  `graphAheadBehind`: result of
`graph_ahead_behind(branch_tip, upstream_tip)`, `none` on error.
`upstream`: result of `Branch::upstream()` (fails when no upstream is
configured).  `stashReopenOk`: whether the second `Repository::open_from_env`
inside `count_stash` succeeds. -/
structure Repository where
  head : HeadResult
  headFileContents : Option String
  state : RepoState
  statuses : Option (List Nat)
  upstream : Option RefInfo
  fetchHeadAge : Option (Option Nat)
  branchUpstreamRemote : Option String
  remoteFound : Bool
  branchUpstreamName : Option String
  graphAheadBehind : Option (Nat × Nat)
  stashReopenOk : Bool
  stash : StashEnum

/-! ## Head Resolver (main.rs lines 165-199) -/

/-- Rust `str::split(c)` over the character list of a string: the
separator-delimited segments, always at least one (an empty input yields
one empty segment). -/
def splitChar (c : Char) : List Char → List (List Char)
  | [] => [[]]
  | x :: xs =>
    match splitChar c xs, decide (x = c) with
    | rest, true => [] :: rest
    | [], false => [[x]]
    | r :: rs, false => (x :: r) :: rs

/-- Rust `str::trim`: drop whitespace from both ends (the `HEAD` file
contents are ASCII, where Rust's and Lean's whitespace predicates agree). -/
def rustTrim (l : List Char) : List Char :=
  ((l.dropWhile Char.isWhitespace).reverse.dropWhile Char.isWhitespace).reverse

/-- Strip one trailing carriage return, as Rust `str::lines` does to each
newline-terminated line. -/
def stripCR (l : List Char) : List Char :=
  if l.getLastD ' ' = '\r' then l.dropLast else l

/-- All segments but the last were terminated by a newline: strip their
trailing carriage return; drop the final segment when it is empty (a
trailing newline produces no extra line, and an empty input has no lines). -/
def rustLinesAux : List (List Char) → List (List Char)
  | [] => []
  | [last] => if last.isEmpty then [] else [last]
  | seg :: rest => stripCR seg :: rustLinesAux rest

/-- Rust `str::lines`: split at `\n` (also consuming a preceding `\r`),
with an optional final line ending. -/
def rustLines (s : String) : List String :=
  (rustLinesAux (splitChar '\n' s.data)).map List.asString

/-- Rust `line.split('/').last()` as a total function: `splitChar` always
returns at least one segment. -/
def last_slash_segment (line : List Char) : String :=
  ((splitChar '/' line).getLastD []).asString

/-- Function `get_head_name` (main.rs lines 165-199).  On an `UnbornBranch` error it
reads the raw `HEAD` file, takes the first line, trims it, and takes the
last `/`-delimited segment (Rust `split('/').last()`, which always yields a
segment).  Any other resolution error yields `none`.  A resolved branch
yields its short name; a detached HEAD yields `:` followed by the hash
truncated to 7 characters (the hash is ASCII hex, so Rust's byte-truncate
is `String.take`). -/
def get_head_name (repo : Repository) : Option String :=
  match repo.head with
  | HeadResult.errUnborn =>
    match repo.headFileContents with
    | none => none
    | some contents =>
      match rustLines contents with
      | [] => none
      | line :: _ => some (last_slash_segment (rustTrim line.data))
  | HeadResult.errOther => none
  | HeadResult.ok head =>
    if head.isBranch then
      head.shorthand
    else
      match head.target with
      | none => none
      | some sha => some (":" ++ sha.take 7)

/-- main.rs line 23: `get_head_name(&repo).unwrap_or(String::from("<unknown>"))`. -/
def head_name (repo : Repository) : String :=
  (get_head_name repo).getD "<unknown>"

/-- main.rs lines 24-28: the phase suffix derived from `repo.state()`. -/
def repo_state_suffix : RepoState → Option String
  | RepoState.Merge => some "MERGING"
  | RepoState.RebaseMerge => some "MERGING"
  | RepoState.Rebase => some "REBASING"
  | RepoState.RebaseInteractive => some "REBASING"
  | _ => none

/-- main.rs lines 30-33: append `|<state>` to the name when a phase suffix
exists. -/
def head_label_of (name : String) (st : RepoState) : String :=
  match repo_state_suffix st with
  | some s => name ++ "|" ++ s
  | none => name

/-- The label main.rs renders: resolved head name (or `<unknown>`) plus the
phase suffix. -/
def head_label (repo : Repository) : String :=
  head_label_of (head_name repo) repo.state

/-! ## Divergence Calculator (main.rs lines 201-233) -/

/-- Function `get_head_info` (main.rs lines 201-233): returns
`(is_local_only_branch, ahead, behind)`.  HEAD unresolvable or detached
gives `(false, 0, 0)`; a branch whose `upstream()` lookup fails gives
`(true, 0, 0)`; an unresolvable branch or upstream tip gives
`(false, 0, 0)`; otherwise the `graph_ahead_behind` answer with
`unwrap_or((0, 0))`. -/
def get_head_info (repo : Repository) : Bool × Nat × Nat :=
  match repo.head with
  | HeadResult.ok head =>
    if !head.isBranch then
      (false, 0, 0)
    else
      match repo.upstream with
      | none => (true, 0, 0)
      | some upstream =>
        match head.target with
        | none => (false, 0, 0)
        | some _ =>
          match upstream.target with
          | none => (false, 0, 0)
          | some _ =>
            match repo.graphAheadBehind with
            | some (ahead, behind) => (false, ahead, behind)
            | none => (false, 0, 0)
  | _ => (false, 0, 0)

/-! ## Fetch Throttler (main.rs lines 113-163)

`try_fetch_current_branch` is pure early-return control flow around one
side effect, the `remote.fetch` call; the embedding returns whether that
call is reached (`true` = a fetch is attempted, its own success or failure
being swallowed by the final `.ok()`). -/

/-- Function `try_fetch_current_branch` (main.rs lines 113-163) as the predicate
"the fetch call is reached".  Mirrors the `?`-chain: `repo.head()` must
succeed and be a branch; if `FETCH_HEAD` exists, its modification time must
be readable and at least 15 minutes (900 seconds) old; `head.name()`,
`branch_upstream_remote` (+ UTF-8), `find_remote`, and
`branch_upstream_name` (+ UTF-8) must all succeed (the final
`split('/').last()` on the upstream name never fails). -/
def try_fetch_current_branch (repo : Repository) : Bool :=
  match repo.head with
  | HeadResult.ok head =>
    if !head.isBranch then
      false
    else
      let throttled : Bool :=
        match repo.fetchHeadAge with
        | none => false
        | some none => true
        | some (some age) => decide (age < 900)
      if throttled then
        false
      else
        match head.name with
        | none => false
        | some _ =>
          match repo.branchUpstreamRemote with
          | none => false
          | some _ =>
            if !repo.remoteFound then
              false
            else
              match repo.branchUpstreamName with
              | none => false
              | some _ => true
  | _ => false

/-- Spec-side condition 1 of the fetch policy: HEAD resolves and is a
branch. -/
def head_is_branch (repo : Repository) : Bool :=
  match repo.head with
  | HeadResult.ok head => head.isBranch
  | _ => false

/-- Spec-side condition 2 of the fetch policy: the `FETCH_HEAD` throttle
marker is absent, or its age is at least 15 minutes (a marker whose
modification time cannot be read, or lies in the future, does not have an
age of at least 15 minutes). -/
def fetch_marker_allows (repo : Repository) : Bool :=
  match repo.fetchHeadAge with
  | none => true
  | some none => false
  | some (some age) => decide (900 ≤ age)

/-- Spec-side condition 3 of the fetch policy: the branch has a configured
upstream remote and upstream ref, i.e. every upstream lookup keyed by the
branch's refname succeeds: the refname itself, the upstream remote name,
the remote it names, and the upstream ref name. -/
def upstream_fetch_configured (repo : Repository) : Bool :=
  (match repo.head with
   | HeadResult.ok head => head.name.isSome
   | _ => false)
  && repo.branchUpstreamRemote.isSome
  && repo.remoteFound
  && repo.branchUpstreamName.isSome

/-! ## Stash Counter (main.rs lines 247-263) -/

/-- Function `count_stash` (main.rs lines 247-263): re-open the repository from the
environment (failure gives 0), then `stash_foreach` with a callback that
increments a counter and always continues; the result of the enumeration is
discarded with `.ok()`, so the count is the number of callback invocations:
0 when the stash ref is absent or unreadable, `n` for `n` stash entries. -/
def count_stash (repo : Repository) : Nat :=
  if !repo.stashReopenOk then
    0
  else
    match repo.stash with
    | StashEnum.noStashRef => 0
    | StashEnum.failure => 0
    | StashEnum.entries n => n

/-! ## Status Formatter (main.rs lines 56-110)

The styling combinators (`bold`, `magenta`, `cyan`, ...) are modelled as
the identity, so each segment below is the plain text main pushes. -/

/-- The segment ` on <label>` (main.rs line 58). -/
def head_segment (label : String) : String :=
  " on " ++ label

/-- The divergence segment (main.rs lines 60-72): the local-only glyph, or
a space followed by `↑<ahead>` and/or `↓<behind>` when nonzero, else
nothing. -/
def divergence_segment (isLocalOnly : Bool) (ahead behind : Nat) : String :=
  if isLocalOnly then
    " ⬨"
  else if ahead > 0 || behind > 0 then
    " " ++ (if ahead > 0 then "↑" ++ toString ahead else "")
        ++ (if behind > 0 then "↓" ++ toString behind else "")
  else
    ""

/-- The counts block (main.rs lines 74-104): when any of the four counts is
nonzero, ` (` then `+<n>`, `Δ<n>`, `●<n>`, `✖<n>` for each nonzero count in
that order, then `)`. -/
def counts_segment (untracked changed staged conflicted : Nat) : String :=
  if untracked > 0 || changed > 0 || staged > 0 || conflicted > 0 then
    " (" ++ (if untracked > 0 then "+" ++ toString untracked else "")
         ++ (if changed > 0 then "Δ" ++ toString changed else "")
         ++ (if staged > 0 then "●" ++ toString staged else "")
         ++ (if conflicted > 0 then "✖" ++ toString conflicted else "")
         ++ ")"
  else
    ""

/-- The stash segment (main.rs lines 106-108): ` ⚑<n>` when `n > 0`. -/
def stash_segment (stashed : Nat) : String :=
  if stashed > 0 then " ⚑" ++ toString stashed else ""

/-- The full status line main assembles into `git_status`
(main.rs lines 56-108). -/
def format_status (label : String) (isLocalOnly : Bool)
    (ahead behind untracked changed staged conflicted stashed : Nat) : String :=
  head_segment label
    ++ divergence_segment isLocalOnly ahead behind
    ++ counts_segment untracked changed staged conflicted
    ++ stash_segment stashed

/-! ## main (main.rs lines 10-111) -/

/-- The output of one run of `main` against an opened repository: `none`
when nothing is printed (the status report cannot be read), otherwise the
assembled status line.  The fetch attempt (line 16) is output-free; head
resolution failure does not stop the run (line 23 substitutes
`<unknown>`). -/
def main_output (repo : Repository) : Option String :=
  match repo.statuses with
  | none => none
  | some statuses =>
    let info := get_head_info repo
    some (format_status (head_label repo) info.1 info.2.1 info.2.2
      (count_by_status statuses untracked_mask)
      (count_by_status statuses changed_mask)
      (count_by_status statuses staged_mask)
      (count_by_status statuses conflicted_mask)
      (count_stash repo))

/-- One whole invocation: `Repository::open_from_env` either fails (not a
repository: nothing is printed, main.rs lines 10-14) or yields a
repository, which `main_output` handles. -/
def run : Option Repository → Option String
  | none => none
  | some repo => main_output repo

/-! ## Concrete repositories used to instantiate the theorems -/

/-- A resolved HEAD on branch `main` with upstream configuration. -/
def branch_ref : RefInfo :=
  ⟨true, some "main", some "aaaabbbbccccdddd", some "refs/heads/main"⟩

/-- A detached HEAD pointing at commit `abc1234def`. -/
def detached_ref : RefInfo :=
  ⟨false, none, some "abc1234def", none⟩

/-- A repository whose HEAD cannot be resolved (`UnbornBranch` error) and
whose raw `HEAD` file cannot be read either, with a readable empty status
report. -/
def repo_head_unresolvable : Repository :=
  ⟨HeadResult.errUnborn, none, RepoState.Clean, some [], none, none, none,
    false, none, none, true, StashEnum.noStashRef⟩

/-- A clean repository with a detached HEAD at commit `abc1234def`. -/
def repo_detached : Repository :=
  ⟨HeadResult.ok detached_ref, none, RepoState.Clean, some [], none, none,
    none, false, none, none, true, StashEnum.noStashRef⟩

/-- A fresh repository on unborn branch `main`, whose `HEAD` file reads
`ref: refs/heads/main` followed by a newline. -/
def repo_unborn : Repository :=
  ⟨HeadResult.errUnborn, some "ref: refs/heads/main\n", RepoState.Clean,
    some [], none, none, none, false, none, none, true, StashEnum.noStashRef⟩

/-- A repository on branch `main` with no configured upstream. -/
def repo_local_only : Repository :=
  ⟨HeadResult.ok branch_ref, none, RepoState.Clean, some [], none, none,
    none, false, none, none, true, StashEnum.noStashRef⟩

/-! ## Counting lemmas -/

theorem foldl_count_eq_countP (p : Nat → Bool) :
    ∀ (l : List Nat) (n : Nat),
      l.foldl (fun counter entry => if p entry then counter + 1 else counter) n
        = n + l.countP p := by
  intro l
  induction l with
  | nil => intro n; simp
  | cons a t ih =>
    intro n
    simp only [List.foldl_cons, List.countP_cons, ih]
    cases h : p a
    · simp
    · simp
      omega

theorem count_by_status_eq_countP (statuses : List Nat) (status : Nat) :
    count_by_status statuses status
      = statuses.countP (fun entry => status_intersects entry status) := by
  simpa using foldl_count_eq_countP
    (fun entry => status_intersects entry status) statuses 0

/-- C1: for every status report, each of the four counts computed by main
(untracked, changed, staged, conflicted) equals the number of reported
entries whose status bitmask has a non-empty intersection with that
category's mask; the four category checks are independent (each equality
refers only to its own mask, so one entry may satisfy several of them). -/
theorem counts_match_category_masks (statuses : List Nat) :
    count_by_status statuses untracked_mask
        = (statuses.filter (fun e => status_intersects e untracked_mask)).length
    ∧ count_by_status statuses changed_mask
        = (statuses.filter (fun e => status_intersects e changed_mask)).length
    ∧ count_by_status statuses staged_mask
        = (statuses.filter (fun e => status_intersects e staged_mask)).length
    ∧ count_by_status statuses conflicted_mask
        = (statuses.filter (fun e => status_intersects e conflicted_mask)).length := by
  refine ⟨?_, ?_, ?_, ?_⟩ <;>
    simp [count_by_status_eq_countP, List.countP_eq_length_filter]

/-- C9: a status entry whose only set bit is `INDEX_DELETED` (a staged file
deletion) increments none of the four counters: removing such an entry from
anywhere in the status report leaves all four counts unchanged, because the
staged mask covers index new/modified/renamed/typechange but not index
delete. -/
theorem index_deleted_entry_counts_nowhere (l1 l2 : List Nat) :
    count_by_status (l1 ++ INDEX_DELETED :: l2) untracked_mask
        = count_by_status (l1 ++ l2) untracked_mask
    ∧ count_by_status (l1 ++ INDEX_DELETED :: l2) changed_mask
        = count_by_status (l1 ++ l2) changed_mask
    ∧ count_by_status (l1 ++ INDEX_DELETED :: l2) staged_mask
        = count_by_status (l1 ++ l2) staged_mask
    ∧ count_by_status (l1 ++ INDEX_DELETED :: l2) conflicted_mask
        = count_by_status (l1 ++ l2) conflicted_mask := by
  refine ⟨?_, ?_, ?_, ?_⟩ <;>
    (simp [count_by_status_eq_countP, List.countP_append, List.countP_cons,
      status_intersects, INDEX_DELETED, untracked_mask, changed_mask, staged_mask,
      conflicted_mask, WT_NEW, WT_DELETED, WT_MODIFIED, WT_RENAMED, WT_TYPECHANGE,
      INDEX_MODIFIED, INDEX_NEW, INDEX_RENAMED, INDEX_TYPECHANGE, CONFLICTED]
     decide)

/-! ## Error handling of HEAD resolution (C2, C5, C6) -/

/-- C2, counterexample: a repository whose HEAD cannot be resolved at all
(unborn-branch error) and whose raw-HEAD fallback also fails (the `HEAD`
file is unreadable) still produces output — the status line ` on <unknown>`
— contradicting the claim that the program then produces no output at all. -/
theorem unresolvable_head_still_prints :
    main_output repo_head_unresolvable = some " on <unknown>"
    ∧ main_output repo_head_unresolvable ≠ none := by
  have h : main_output repo_head_unresolvable = some " on <unknown>" := rfl
  refine ⟨h, ?_⟩
  rw [h]
  simp

/-- C2, amended: the program produces no output exactly when the directory
is not a repository or the status report cannot be read; when HEAD cannot
be resolved (and the unborn-HEAD fallback also fails) the run still prints,
with the `<unknown>` placeholder label. -/
theorem silent_failure_modes (repo : Repository) :
    run none = none
    ∧ (repo.statuses = none → main_output repo = none)
    ∧ ((main_output repo).isSome = true ↔ repo.statuses.isSome = true)
    ∧ ((repo.head = HeadResult.errOther
        ∨ (repo.head = HeadResult.errUnborn ∧ repo.headFileContents = none))
        → head_name repo = "<unknown>")
  := by
  refine ⟨rfl, ?_, ?_, ?_⟩
  · intro h
    simp [main_output, h]
  · cases h : repo.statuses <;> simp [main_output, h]
  · intro h
    rcases h with h | ⟨h1, h2⟩
    · simp [head_name, get_head_name, h]
    · simp [head_name, get_head_name, h1, h2]

/-- Witness for `silent_failure_modes` at `repo_head_unresolvable`. -/
theorem silent_failure_modes_witness :
    head_name repo_head_unresolvable = "<unknown>" :=
  (silent_failure_modes repo_head_unresolvable).2.2.2 (Or.inr ⟨rfl, rfl⟩)

/-- C5: whenever HEAD resolves but is not a branch (detached HEAD) and
points at a commit, the head label is `:` followed by exactly the first 7
characters of the commit hash. -/
theorem detached_head_label (repo : Repository) (r : RefInfo) (sha : String)
    (h1 : repo.head = HeadResult.ok r) (h2 : r.isBranch = false)
    (h3 : r.target = some sha) :
    get_head_name repo = some (":" ++ sha.take 7) := by
  simp [get_head_name, h1, h2, h3]

/-- Witness for `detached_head_label`: detached HEAD at `abc1234def`
renders as `:abc1234`. -/
theorem detached_head_label_witness :
    get_head_name repo_detached = some ":abc1234" :=
  (detached_head_label repo_detached detached_ref "abc1234def" rfl rfl rfl).trans rfl

/-- C6: when HEAD resolution fails with the unborn-branch error, the label
is the last `/`-delimited segment of the (trimmed) first line of the raw
`HEAD` file; any other resolution failure, and failure of the fallback
itself (unreadable or empty `HEAD` file), yields the `<unknown>`
placeholder and the run continues. -/
theorem unborn_fallback_label (repo : Repository) :
    (∀ contents line rest,
      repo.head = HeadResult.errUnborn
      → repo.headFileContents = some contents
      → rustLines contents = line :: rest
      → head_name repo = last_slash_segment (rustTrim line.data))
    ∧ (repo.head = HeadResult.errOther → head_name repo = "<unknown>")
    ∧ (repo.head = HeadResult.errUnborn → repo.headFileContents = none
        → head_name repo = "<unknown>")
    ∧ (∀ contents,
      repo.head = HeadResult.errUnborn
      → repo.headFileContents = some contents
      → rustLines contents = []
      → head_name repo = "<unknown>") := by
  refine ⟨?_, ?_, ?_, ?_⟩
  · intro contents line rest h1 h2 h3
    simp [head_name, get_head_name, h1, h2, h3]
  · intro h
    simp [head_name, get_head_name, h]
  · intro h1 h2
    simp [head_name, get_head_name, h1, h2]
  · intro contents h1 h2 h3
    simp [head_name, get_head_name, h1, h2, h3]

/-- Witness for `unborn_fallback_label`: a `HEAD` file reading
`ref: refs/heads/main` (with trailing newline) yields label `main`. -/
theorem unborn_fallback_label_witness :
    head_name repo_unborn = "main" :=
  ((unborn_fallback_label repo_unborn).1 "ref: refs/heads/main\n"
    "ref: refs/heads/main" [] rfl rfl rfl).trans rfl

/-! ## Repository phase suffix (C10) -/

/-- C10: for every repository state other than merge,
merge-after-rebase-conflict, rebase, and interactive rebase (cherry-pick,
revert, bisect, apply-mailbox, ...), no phase suffix is appended: the label
is rendered exactly as in the clean (Normal) phase, i.e. it is the bare
head name. -/
theorem no_phase_suffix_outside_four (name : String) (st : RepoState)
    (h1 : st ≠ RepoState.Merge) (h2 : st ≠ RepoState.RebaseMerge)
    (h3 : st ≠ RepoState.Rebase) (h4 : st ≠ RepoState.RebaseInteractive) :
    head_label_of name st = head_label_of name RepoState.Clean
    ∧ head_label_of name st = name := by
  cases st <;> simp_all [head_label_of, repo_state_suffix]

/-- Witness for `no_phase_suffix_outside_four` at a repository mid
cherry-pick. -/
theorem no_phase_suffix_outside_four_witness :
    head_label_of "main" RepoState.CherryPick = "main" :=
  (no_phase_suffix_outside_four "main" RepoState.CherryPick
    (by decide) (by decide) (by decide) (by decide)).2

/-! ## Divergence (C4) -/

/-- C4: the divergence calculation reports `is_local_only = true` exactly
when HEAD resolves to a branch whose upstream lookup fails (no configured
upstream) — never for a detached HEAD, an unresolvable HEAD, or a branch
with an upstream — and in that case it reports ahead = 0 and behind = 0. -/
theorem local_only_iff_no_upstream (repo : Repository) :
    ((get_head_info repo).1 = true
      ↔ head_is_branch repo = true ∧ repo.upstream = none)
    ∧ (head_is_branch repo = true → repo.upstream = none
        → get_head_info repo = (true, 0, 0)) := by
  rcases repo with ⟨head, hf, st, stat, up, age, bur, rf, bun, gab, sro, stash⟩
  cases head with
  | errUnborn => simp [get_head_info, head_is_branch]
  | errOther => simp [get_head_info, head_is_branch]
  | ok r =>
    rcases r with ⟨ib, sh, tg, nm⟩
    cases ib
    · simp [get_head_info, head_is_branch]
    · rcases up with _ | ⟨uib, ush, utg, unm⟩
      · simp [get_head_info, head_is_branch]
      · rcases tg with _ | tgv <;> rcases utg with _ | utgv <;>
          rcases gab with _ | ⟨ga, gb⟩ <;>
          simp [get_head_info, head_is_branch]

/-- Witness for `local_only_iff_no_upstream`: a branch with no configured
upstream reports `(true, 0, 0)`. -/
theorem local_only_iff_no_upstream_witness :
    get_head_info repo_local_only = (true, 0, 0) :=
  (local_only_iff_no_upstream repo_local_only).2 rfl rfl

/-! ## Fetch policy (C3) -/

/-- C3: a fetch is attempted if and only if all three spec conditions hold:
HEAD resolves and is a branch; the `FETCH_HEAD` throttle marker is absent
or at least 15 minutes old; and the branch's upstream configuration
resolves (upstream remote name, the remote itself, and upstream ref name).
If any one condition is false, the fetch call is never reached. -/
theorem fetch_iff_policy (repo : Repository) :
    try_fetch_current_branch repo
      = (head_is_branch repo && fetch_marker_allows repo
          && upstream_fetch_configured repo) := by
  rcases repo with ⟨head, hf, st, stat, up, age, bur, rf, bun, gab, sro, stash⟩
  cases head with
  | errUnborn => rfl
  | errOther => rfl
  | ok r =>
    rcases r with ⟨ib, sh, tg, nm⟩
    cases ib
    · rfl
    · rcases age with _ | _ | a
      · cases nm <;> cases bur <;> cases rf <;> cases bun <;> rfl
      · rfl
      · by_cases hA : a < 900
        · have h9 : ¬ (900 ≤ a) := by omega
          simp [try_fetch_current_branch, head_is_branch, fetch_marker_allows,
            upstream_fetch_configured, hA, h9]
        · have h9 : 900 ≤ a := by omega
          cases nm <;> cases bur <;> cases rf <;> cases bun <;>
            simp [try_fetch_current_branch, head_is_branch, fetch_marker_allows,
              upstream_fetch_configured, hA, h9]

/-! ## Stash counting (C7) -/

/-- C7: stash counting never fails the run (it is a total function into the
counts): an absent stash ref yields 0, an enumeration failure (or a failed
re-open of the repository) yields 0, and the stash count influences only
the trailing stash segment of the formatted line — the rest of the status
line is what it would be with 0 stashes. -/
theorem stash_failures_swallowed (repo : Repository) (label : String)
    (lo : Bool) (a b u c s k : Nat) :
    (repo.stash = StashEnum.noStashRef → count_stash repo = 0)
    ∧ (repo.stash = StashEnum.failure → count_stash repo = 0)
    ∧ (repo.stashReopenOk = false → count_stash repo = 0)
    ∧ (∀ st : Nat,
        format_status label lo a b u c s k st
          = format_status label lo a b u c s k 0 ++ stash_segment st) := by
  refine ⟨?_, ?_, ?_, ?_⟩
  · intro h
    simp [count_stash, h]
  · intro h
    simp [count_stash, h]
  · intro h
    simp [count_stash, h]
  · intro st
    simp [format_status, stash_segment]

/-- Witness for `stash_failures_swallowed`: the unresolvable-HEAD test
repository has no stash ref and counts 0 stashes. -/
theorem stash_failures_swallowed_witness :
    count_stash repo_head_unresolvable = 0 :=
  (stash_failures_swallowed repo_head_unresolvable "main" false 0 0 0 0 0 0).1 rfl

/-! ## Counts block formatting (C8) -/

/-- C8: when at least one of the four status counts is nonzero the
formatter appends ` (`, then — in the fixed order untracked, changed,
staged, conflicted — the segment `<glyph><count>` for each nonzero count
only (glyphs `+`, `Δ`, `●`, `✖`), then `)`; when all four are zero, no
counts block is emitted. -/
theorem counts_block_format (label : String) (lo : Bool)
    (a b u c s k st : Nat) :
    ((0 < u ∨ 0 < c ∨ 0 < s ∨ 0 < k) →
      format_status label lo a b u c s k st
        = head_segment label ++ divergence_segment lo a b
          ++ (" (" ++ (if 0 < u then "+" ++ toString u else "")
              ++ (if 0 < c then "Δ" ++ toString c else "")
              ++ (if 0 < s then "●" ++ toString s else "")
              ++ (if 0 < k then "✖" ++ toString k else "")
              ++ ")")
          ++ stash_segment st)
    ∧ (u = 0 → c = 0 → s = 0 → k = 0 →
      format_status label lo a b u c s k st
        = head_segment label ++ divergence_segment lo a b
          ++ stash_segment st) := by
  constructor
  · intro h
    have hg : (decide (u > 0) || decide (c > 0) || decide (s > 0)
        || decide (k > 0)) = true := by
      rcases h with h | h | h | h <;> simp [h]
    simp [format_status, counts_segment, hg]
  · intro hu hc hs hk
    subst hu; subst hc; subst hs; subst hk
    simp [format_status, counts_segment]

/-- Witness for `counts_block_format`: branch `main`, ahead 2, behind 1,
3 untracked and 1 staged file, renders as ` on main ↑2↓1 (+3●1)`. -/
theorem counts_block_format_witness :
    format_status "main" false 2 1 3 0 1 0 0 = " on main ↑2↓1 (+3●1)" :=
  ((counts_block_format "main" false 2 1 3 0 1 0 0).1
    (Or.inl (by decide))).trans rfl
